import Mathlib

/-!
Verification of the `@gnome/assert` facade (src/mod.ts).

The repository is a renaming/aggregation layer: an aggregate object
`assert` whose members are bound to the assertion functions of the
external `@std/assert` library, plus flat re-exports of the same
functions.  The facade code itself (the member table at
src/mod.ts:429-759, the flat re-export list at src/mod.ts:761-783 and
the declared member signatures at src/mod.ts:44-427) is embedded
directly.  The delegate functions live in the external library and are
not part of this repository, so their behaviour is modelled from the
specification of the external interface (deep equality, truthiness,
subset match, throw/reject expectations, unconditional failure).
-/

set_option autoImplicit false

namespace GnomeAssert

/-- A JavaScript-like runtime value, as far as the assertion semantics
needs it: primitives, arrays, plain objects (ordered field lists) and
error objects (a name and a message).  Numbers are modelled as
rationals; IEEE-754 artefacts are out of scope. -/
inductive Value where
  | vUndefined
  | vNull
  | vBool (b : Bool)
  | vNum (n : Rat)
  | vStr (s : String)
  | vArr (elems : List Value)
  | vObj (fields : List (String × Value))
  | vError (name : String) (message : String)

mutual

/-- Modelled from the spec: the deep-equality relation used by the
external delegates of `equals` / `notEquals` (spec section 3: "deep
equality").  Two values are deeply equal when they have the same shape
and all components are deeply equal; composite values are compared
componentwise, not by reference. -/
def deepEqual : Value → Value → Bool
  | .vUndefined, .vUndefined => true
  | .vNull, .vNull => true
  | .vBool a, .vBool b => a == b
  | .vNum a, .vNum b => a == b
  | .vStr a, .vStr b => a == b
  | .vError n1 m1, .vError n2 m2 => n1 == n2 && m1 == m2
  | .vArr xs, .vArr ys => deepEqualList xs ys
  | .vObj xs, .vObj ys => deepEqualFields xs ys
  | _, _ => false

/-- Componentwise deep equality of two lists of values. -/
def deepEqualList : List Value → List Value → Bool
  | [], [] => true
  | x :: xs, y :: ys => deepEqual x y && deepEqualList xs ys
  | _, _ => false

/-- Componentwise deep equality of two field lists. -/
def deepEqualFields : List (String × Value) → List (String × Value) → Bool
  | [], [] => true
  | (k1, v1) :: xs, (k2, v2) :: ys => k1 == k2 && deepEqual v1 v2 && deepEqualFields xs ys
  | _, _ => false

end

mutual

/-- Deep equality is reflexive: every value is deeply equal to itself. -/
theorem deepEqual_refl : (v : Value) → deepEqual v v = true
  | .vUndefined => rfl
  | .vNull => rfl
  | .vBool b => by simp [deepEqual]
  | .vNum n => by simp [deepEqual]
  | .vStr s => by simp [deepEqual]
  | .vError a b => by simp [deepEqual]
  | .vArr xs => by rw [deepEqual]; exact deepEqualList_refl xs
  | .vObj xs => by rw [deepEqual]; exact deepEqualFields_refl xs

theorem deepEqualList_refl : (l : List Value) → deepEqualList l l = true
  | [] => rfl
  | x :: xs => by rw [deepEqualList, deepEqual_refl x, deepEqualList_refl xs]; rfl

theorem deepEqualFields_refl : (l : List (String × Value)) → deepEqualFields l l = true
  | [] => rfl
  | (k, v) :: xs => by
      rw [deepEqualFields, deepEqual_refl v, deepEqualFields_refl xs]
      simp

end

/-- Modelled from the spec: JavaScript truthiness, deciding the
`truthy` / `ok` / `falsey` delegates.  `undefined`, `null`, `false`,
`0` and the empty string are falsey; every other value is truthy. -/
def truthyVal : Value → Bool
  | .vUndefined => false
  | .vNull => false
  | .vBool b => b
  | .vNum n => n != 0
  | .vStr s => s != ""
  | .vArr _ => true
  | .vObj _ => true
  | .vError _ _ => true

/-- Modelled from the spec: the `exists` delegate accepts every value
that is not null/undefined-equivalent (spec section 3). -/
def existsVal : Value → Bool
  | .vUndefined => false
  | .vNull => false
  | _ => true

/-- Modelled from the spec: "identity/reference or primitive strict
equality" for the `strictEquals` delegates.  Primitives compare by
value; reference identity of composite values is not representable in
this value model, so two composite literals are never strictly equal
here. -/
def strictEqualVal : Value → Value → Bool
  | .vUndefined, .vUndefined => true
  | .vNull, .vNull => true
  | .vBool a, .vBool b => a == b
  | .vNum a, .vNum b => a == b
  | .vStr a, .vStr b => a == b
  | _, _ => false

/-- Does the list `l` begin with the run `p`? -/
def beginsWith : List Char → List Char → Bool
  | _, [] => true
  | [], _ :: _ => false
  | c :: cs, d :: ds => c == d && beginsWith cs ds

/-- Does the list `l` contain `p` as a contiguous run? -/
def containsSeq (l p : List Char) : Bool :=
  if beginsWith l p then true
  else
    match l with
    | [] => false
    | _ :: rest => containsSeq rest p

/-- Modelled from the spec: substring containment, deciding the
`stringIncludes` delegate and the message-substring matching of
`throws` / `rejects` / `isError`. -/
def strIncludes (hay sub : String) : Bool :=
  containsSeq hay.data sub.data

/-- Modelled from the spec: a regular-expression pattern, abstracted to
its matching behaviour on strings (regular-expression matching itself
is owned by the external library and out of scope). -/
structure Pattern where
  test : String → Bool

/-- Modelled from the spec: a runtime class/constructor reference,
abstracted to its instance test (the "runtime type/class membership
test" of spec section 3). -/
structure ClassRef where
  isInstance : Value → Bool

/-- What an operation can throw: either the uniform assertion failure
(`AssertionError`, re-exported at src/mod.ts:36) carrying a
human-readable message, or an arbitrary value raised by user code
(possible in JavaScript, never produced by the delegates). -/
inductive Thrown where
  | assertionFailure (msg : String)
  | jsError (v : Value)

/-- The outcome of invoking an operation: a returned value or a thrown
one. -/
abbrev Outcome (α : Type) := Except Thrown α

/-- Modelled from the spec: a failure message optionally extended with
the caller-supplied message (spec section 7: "optionally including a
caller-supplied override or suffix"). -/
def withMsg (base : String) : Option String → String
  | none => base
  | some m => base ++ ": " ++ m

/-- Signal an assertion failure with the given base message and
optional caller message. -/
def failMsg (base : String) (m : Option String) : Outcome Value :=
  .error (.assertionFailure (withMsg base m))

/-- Return `undefined` (the value a void JavaScript function returns)
when the condition holds, otherwise signal an assertion failure. -/
def check (cond : Bool) (base : String) (m : Option String) : Outcome Value :=
  if cond then .ok .vUndefined else failMsg base m

/-- Modelled from the spec: the matching rules shared by `throws`,
`rejects` and `isError` — an optional expected error class and an
optional required substring of the error message (spec section 4,
"Overloaded signatures" note in section 9). -/
def errMatches (e : Value) (cls : Option ClassRef) (mi : Option String) : Bool :=
  (match cls with
    | none => true
    | some c => c.isInstance e) &&
  (match mi with
    | none => true
    | some s =>
      match e with
      | .vError _ message => strIncludes message s
      | _ => false)

/-- Modelled from the spec: the common core of the `throws` and
`rejects` delegates.  `settle` is the observed behaviour of the
supplied function (the raised/rejected value, or the returned/resolved
one).  If it failed and the failure matches, the failure value is the
successful result; otherwise an assertion failure is signalled. -/
def expectOutcome (what : String) (settle : Except Value Value)
    (cls : Option ClassRef) (mi : Option String) (m : Option String) : Outcome Value :=
  match settle with
  | .ok _ => failMsg ("Expected function to " ++ what) m
  | .error e =>
    if errMatches e cls mi then .ok e
    else failMsg ("Expected thrown error to match for " ++ what) m

/-- Modelled from the spec: the `isError` delegate — the value must be
an error, optionally of the expected class, optionally with the
expected message substring (spec section 4). -/
def isErrorRun (v : Value) (cls : Option ClassRef) (mi : Option String)
    (m : Option String) : Outcome Value :=
  match v with
  | .vError _ message =>
    check ((match cls with
             | none => true
             | some c => c.isInstance v) &&
           (match mi with
             | none => true
             | some s => strIncludes message s))
      "Error does not match the expected class or message" m
  | _ => failMsg "Value is not an Error" m

/-- Look up a field by key in an ordered field list. -/
def lookupField (k : String) : List (String × Value) → Option Value
  | [] => none
  | (k2, v) :: rest => if k2 == k then some v else lookupField k rest

/-- Modelled from the spec: subset match for `matchObject` — every
key/value of the expected object is present and deeply equal in the
actual object, extra keys in the actual object are ignored (spec
glossary, "Subset match"). -/
def objectCovers (actual expected : List (String × Value)) : Bool :=
  expected.all fun kv =>
    match lookupField kv.1 actual with
    | some w => deepEqual w kv.2
    | none => false

/-- Modelled from the spec: sequence containment for `arrayIncludes` —
every expected element is deeply equal to some element of the actual
array (spec section 3: "sequence containment (subset)"). -/
def arrayIncludesVal (actual expected : List Value) : Bool :=
  expected.all fun e => actual.any fun a => deepEqual a e

/-- Modelled from the spec: the default tolerance of `almostEquals`
when none is supplied (spec section 9: "near 1e-7"). -/
def defaultTolerance : Rat := 1 / 10000000

/-- Modelled from the spec: numeric equality within a tolerance for
`almostEquals` (spec section 3). -/
def almostEqualVal (a b : Rat) (delta : Option Rat) : Bool :=
  decide (|a - b| ≤ delta.getD defaultTolerance)

/-- The export surface of the external `@std/assert` library consumed
by the facade: exactly the twenty-one assertion functions imported at
src/mod.ts:11-34 (the error class `AssertionError` is a type, not an
assertion function). -/
inductive Delegate where
  | assertEquals
  | assertStrictEquals
  | assertNotEquals
  | assertNotStrictEquals
  | assertTruthy
  | assertFalse
  | assertExists
  | assertMatch
  | assertNotMatch
  | assertStringIncludes
  | assertArrayIncludes
  | assertObjectMatch
  | assertInstanceOf
  | assertNotInstanceOf
  | assertIsError
  | assertThrows
  | assertRejects
  | fail
  | unimplemented
  | unreachable
  | assertAlmostEquals
  deriving DecidableEq, Fintype

/-- The twenty-two member names of the aggregate `assert` object
(src/mod.ts:429-759), which are also the declared member names of the
`Assertion` type (src/mod.ts:44-427). -/
inductive ShortName where
  | equals
  | «exists»
  | strictEquals
  | notEquals
  | notStrictEquals
  | «match»
  | notMatch
  | arrayIncludes
  | throws
  | rejects
  | ok
  | truthy
  | almostEquals
  | falsey
  | stringIncludes
  | instanceOf
  | isError
  | notInstanceOf
  | matchObject
  | fail
  | unimplemented
  | unreachable
  deriving DecidableEq, Fintype

/-- The member table of the aggregate `assert` object, transcribed
from the object literal at src/mod.ts:429-759: each member name bound
to its `@std/assert` delegate. -/
def assertMember : ShortName → Delegate
  | .equals => .assertEquals
  | .«exists» => .assertExists
  | .strictEquals => .assertStrictEquals
  | .notEquals => .assertNotEquals
  | .notStrictEquals => .assertNotStrictEquals
  | .«match» => .assertMatch
  | .notMatch => .assertNotMatch
  | .arrayIncludes => .assertArrayIncludes
  | .throws => .assertThrows
  | .rejects => .assertRejects
  | .ok => .assertTruthy
  | .truthy => .assertTruthy
  | .almostEquals => .assertAlmostEquals
  | .falsey => .assertFalse
  | .stringIncludes => .assertStringIncludes
  | .instanceOf => .assertInstanceOf
  | .isError => .assertIsError
  | .notInstanceOf => .assertNotInstanceOf
  | .matchObject => .assertObjectMatch
  | .fail => .fail
  | .unimplemented => .unimplemented
  | .unreachable => .unreachable

/-- The flat re-export list, transcribed from the export block at
src/mod.ts:761-783: which delegate, if any, is exported top-level
under each short name.  The block renames twenty-one imports; the
short name `ok` does not appear in it. -/
def flatExport : ShortName → Option Delegate
  | .almostEquals => some .assertAlmostEquals
  | .arrayIncludes => some .assertArrayIncludes
  | .equals => some .assertEquals
  | .«exists» => some .assertExists
  | .falsey => some .assertFalse
  | .instanceOf => some .assertInstanceOf
  | .isError => some .assertIsError
  | .«match» => some .assertMatch
  | .notEquals => some .assertNotEquals
  | .notInstanceOf => some .assertNotInstanceOf
  | .notMatch => some .assertNotMatch
  | .notStrictEquals => some .assertNotStrictEquals
  | .matchObject => some .assertObjectMatch
  | .rejects => some .assertRejects
  | .strictEquals => some .assertStrictEquals
  | .stringIncludes => some .assertStringIncludes
  | .throws => some .assertThrows
  | .truthy => some .assertTruthy
  | .fail => some .fail
  | .unimplemented => some .unimplemented
  | .unreachable => some .unreachable
  | .ok => none

/-- Whether the declared signature of each member of the `Assertion`
type (src/mod.ts:44-427) ends in an optional message parameter
`msg?: string`.  Every member has one except `unreachable`, declared
`unreachable(): never` at src/mod.ts:426. -/
def hasOptionalMsg : ShortName → Bool
  | .unreachable => false
  | _ => true

/-- The input type of each delegate, following the declared member
signatures of the `Assertion` type (src/mod.ts:44-427), with the
`throws` / `rejects` overloads replaced by the configuration the spec
recommends in section 9 (optional expected class, optional message
substring, optional message).  For `throws` and `rejects` the supplied
function is represented by its observed behaviour: the value it raises
(rejects with), or the value it returns (resolves to). -/
def DelegateInput : Delegate → Type
  | .assertEquals => Value × Value × Option String
  | .assertStrictEquals => Value × Value × Option String
  | .assertNotEquals => Value × Value × Option String
  | .assertNotStrictEquals => Value × Value × Option String
  | .assertTruthy => Value × Option String
  | .assertFalse => Value × Option String
  | .assertExists => Value × Option String
  | .assertMatch => String × Pattern × Option String
  | .assertNotMatch => String × Pattern × Option String
  | .assertStringIncludes => String × String × Option String
  | .assertArrayIncludes => List Value × List Value × Option String
  | .assertObjectMatch => List (String × Value) × List (String × Value) × Option String
  | .assertInstanceOf => Value × ClassRef × Option String
  | .assertNotInstanceOf => Value × ClassRef × Option String
  | .assertIsError => Value × Option ClassRef × Option String × Option String
  | .assertThrows => Except Value Value × Option ClassRef × Option String × Option String
  | .assertRejects => Except Value Value × Option ClassRef × Option String × Option String
  | .fail => Option String
  | .unimplemented => Option String
  | .unreachable => Unit
  | .assertAlmostEquals => Rat × Rat × Option Rat × Option String

/-- Modelled from the spec: the behaviour of each external
`@std/assert` delegate on its input (spec sections 3 and 4).  On
success a void delegate returns `undefined`; `throws` / `rejects`
return the matched error value; on violation every delegate signals
the uniform assertion failure. -/
def delegateRun : (d : Delegate) → DelegateInput d → Outcome Value
  | .assertEquals, (a, b, m) => check (deepEqual a b) "Values are not equal" m
  | .assertStrictEquals, (a, b, m) => check (strictEqualVal a b) "Values are not strictly equal" m
  | .assertNotEquals, (a, b, m) => check (!deepEqual a b) "Expected values to be not equal" m
  | .assertNotStrictEquals, (a, b, m) => check (!strictEqualVal a b) "Expected values to be not strictly equal" m
  | .assertTruthy, (x, m) => check (truthyVal x) "Expected expression to be truthy" m
  | .assertFalse, (x, m) => check (!truthyVal x) "Expected expression to be falsey" m
  | .assertExists, (x, m) => check (existsVal x) "Expected value to exist" m
  | .assertMatch, (s, p, m) => check (p.test s) "Expected string to match the pattern" m
  | .assertNotMatch, (s, p, m) => check (!p.test s) "Expected string to not match the pattern" m
  | .assertStringIncludes, (a, b, m) => check (strIncludes a b) "Expected string to include the expected substring" m
  | .assertArrayIncludes, (a, b, m) => check (arrayIncludesVal a b) "Expected array to include the expected values" m
  | .assertObjectMatch, (a, b, m) => check (objectCovers a b) "Expected object to contain the expected subset" m
  | .assertInstanceOf, (v, c, m) => check (c.isInstance v) "Expected value to be an instance of the expected type" m
  | .assertNotInstanceOf, (v, c, m) => check (!c.isInstance v) "Expected value to not be an instance of the type" m
  | .assertIsError, (v, cls, mi, m) => isErrorRun v cls mi m
  | .assertThrows, (fnb, cls, mi, m) => expectOutcome "throw" fnb cls mi m
  | .assertRejects, (settle, cls, mi, m) => expectOutcome "reject" settle cls mi m
  | .fail, m => failMsg "Failed assertion" m
  | .unimplemented, m => failMsg "Unimplemented" m
  | .unreachable, _ => failMsg "Unreachable" none
  | .assertAlmostEquals, (a, b, d, m) => check (almostEqualVal a b d) "Values are not almost equal" m

/-- Calling a member of the aggregate `assert` object: the facade
binds each member name directly to its delegate (src/mod.ts:429-759),
so a member call is the delegate call, nothing in between. -/
def facadeRun (n : ShortName) (args : DelegateInput (assertMember n)) : Outcome Value :=
  delegateRun (assertMember n) args

/-- Modelled from the spec: the name-to-delegate mapping table of spec
section 3, row by row (`equals` to deep equality, `truthy` / `ok` to
the truthiness delegate, and so on), stated against the external
export surface.  This is the spec side of the refinement; it is to be
compared with `assertMember`, which is transcribed from the source. -/
def specDelegateTable : ShortName → Delegate
  | .equals => .assertEquals
  | .strictEquals => .assertStrictEquals
  | .notEquals => .assertNotEquals
  | .notStrictEquals => .assertNotStrictEquals
  | .truthy => .assertTruthy
  | .ok => .assertTruthy
  | .falsey => .assertFalse
  | .«exists» => .assertExists
  | .«match» => .assertMatch
  | .notMatch => .assertNotMatch
  | .stringIncludes => .assertStringIncludes
  | .arrayIncludes => .assertArrayIncludes
  | .matchObject => .assertObjectMatch
  | .instanceOf => .assertInstanceOf
  | .notInstanceOf => .assertNotInstanceOf
  | .isError => .assertIsError
  | .throws => .assertThrows
  | .rejects => .assertRejects
  | .fail => .fail
  | .unimplemented => .unimplemented
  | .unreachable => .unreachable
  | .almostEquals => .assertAlmostEquals

/-- Modelled from the spec: `rejects` with the supplied function made
an explicit effect.  The function is represented against a global
invocation counter: calling it transforms the counter and yields the
settlement of its deferred result.  `rejects` invokes the function,
then computes its outcome from the settlement alone (spec section 5:
invoked exactly once, outcome determined strictly after
settlement). -/
def rejectsCounted (fn : Nat → Except Value Value × Nat) (cls : Option ClassRef)
    (mi : Option String) (m : Option String) : Nat → Outcome Value × Nat :=
  fun n => (expectOutcome "reject" (fn n).1 cls mi m, (fn n).2)

/-- A `check` never throws anything but the uniform assertion
failure. -/
theorem check_error {c : Bool} {b : String} {m : Option String} {e : Thrown}
    (h : check c b m = .error e) : ∃ s, e = .assertionFailure s := by
  unfold check failMsg at h
  split at h
  · exact Except.noConfusion h
  · exact ⟨withMsg b m, by injection h with h2; exact h2.symm⟩

/-- A `failMsg` throws exactly the uniform assertion failure. -/
theorem failMsg_error {b : String} {m : Option String} {e : Thrown}
    (h : failMsg b m = .error e) : ∃ s, e = .assertionFailure s := by
  unfold failMsg at h
  exact ⟨withMsg b m, by injection h with h2; exact h2.symm⟩

/-- An `expectOutcome` never throws anything but the uniform assertion
failure. -/
theorem expectOutcome_error {w : String} {settle : Except Value Value}
    {cls : Option ClassRef} {mi : Option String} {m : Option String} {e : Thrown}
    (h : expectOutcome w settle cls mi m = .error e) : ∃ s, e = .assertionFailure s := by
  unfold expectOutcome at h
  split at h
  · exact failMsg_error h
  · split at h
    · exact Except.noConfusion h
    · exact failMsg_error h

/-- An `isErrorRun` never throws anything but the uniform assertion
failure. -/
theorem isErrorRun_error {v : Value} {cls : Option ClassRef} {mi : Option String}
    {m : Option String} {e : Thrown}
    (h : isErrorRun v cls mi m = .error e) : ∃ s, e = .assertionFailure s := by
  unfold isErrorRun at h
  cases v with
  | vError name message => exact check_error h
  | vUndefined => exact failMsg_error h
  | vNull => exact failMsg_error h
  | vBool b => exact failMsg_error h
  | vNum n => exact failMsg_error h
  | vStr s => exact failMsg_error h
  | vArr xs => exact failMsg_error h
  | vObj xs => exact failMsg_error h

/-- Did the operation signal a failure? -/
def failed {α : Type} (o : Outcome α) : Bool :=
  match o with
  | .error _ => true
  | .ok _ => false

/-- C1: every member of the aggregate `assert` object is bound to
exactly the delegate the mapping table names for it, and calling the
member is calling that delegate — same input, same outcome, nothing
added by the facade. -/
theorem facade_refines_spec_table :
    (∀ n : ShortName, assertMember n = specDelegateTable n) ∧
    (∀ (n : ShortName) (args : DelegateInput (assertMember n)),
        facadeRun n args = delegateRun (assertMember n) args) :=
  ⟨by decide, fun _ _ => rfl⟩

/-- C2 counterexample: the member mapping is not 1:1 — the distinct
short names `truthy` and `ok` are bound to the same delegate
(src/mod.ts:600 and src/mod.ts:613 both bind `assertTruthy`). -/
theorem member_map_not_injective :
    assertMember ShortName.truthy = assertMember ShortName.ok ∧
      ShortName.truthy ≠ ShortName.ok := by decide

/-- C2 amended: the member mapping is static and total (every short
name resolves to exactly one delegate), and it is onto the external
export surface; it is injective except that `truthy` and `ok` share
the delegate `assertTruthy`. -/
theorem member_map_total_onto_quasi_injective :
    (∀ d : Delegate, ∃ n : ShortName, assertMember n = d) ∧
    (∀ m n : ShortName, assertMember m = assertMember n →
        m = n ∨ assertMember m = Delegate.assertTruthy) := by decide

/-- Witness for the amended C2 theorem at the short name `equals`. -/
theorem member_map_total_onto_quasi_injective_witness :
    ShortName.equals = ShortName.equals ∨
      assertMember ShortName.equals = Delegate.assertTruthy :=
  member_map_total_onto_quasi_injective.2 ShortName.equals ShortName.equals rfl

/-- C3 counterexample: the aggregate member `ok` has no flat
top-level binding — the export block at src/mod.ts:761-783 renames
twenty-one imports and omits the name `ok`. -/
theorem flat_export_misses_ok : flatExport ShortName.ok = none := rfl

/-- C3 amended: every short name of the aggregate other than `ok` has
a flat top-level binding under the same name, bound to the same
delegate as the aggregate member; `ok` has no flat binding (its
delegate is flat-exported only under the name `truthy`). -/
theorem flat_export_matches_members_except_ok :
    flatExport ShortName.ok = none ∧
    ∀ n : ShortName, n ≠ ShortName.ok → flatExport n = some (assertMember n) := by
  decide

/-- Witness for the amended C3 theorem at the short name `truthy`. -/
theorem flat_export_matches_members_except_ok_witness :
    flatExport ShortName.truthy = some (assertMember ShortName.truthy) :=
  flat_export_matches_members_except_ok.2 ShortName.truthy (by decide)

/-- C4 counterexample: not all three unconditional operations accept
an optional message — the declared signature of `unreachable` is
`unreachable(): never` (src/mod.ts:426), with no message
parameter. -/
theorem unconditional_msg_param_counterexample :
    ¬ (hasOptionalMsg ShortName.fail = true ∧
       hasOptionalMsg ShortName.unimplemented = true ∧
       hasOptionalMsg ShortName.unreachable = true) := by decide

/-- C4 amended: `fail` and `unimplemented` accept an optional message
while `unreachable` accepts no arguments; each of the three always
signals failure (on every argument) and never returns normally. -/
theorem unconditional_ops_always_fail :
    assertMember ShortName.fail = Delegate.fail ∧
    assertMember ShortName.unimplemented = Delegate.unimplemented ∧
    assertMember ShortName.unreachable = Delegate.unreachable ∧
    hasOptionalMsg ShortName.fail = true ∧
    hasOptionalMsg ShortName.unimplemented = true ∧
    hasOptionalMsg ShortName.unreachable = false ∧
    (∀ m : Option String,
        delegateRun Delegate.fail m =
          .error (.assertionFailure (withMsg "Failed assertion" m))) ∧
    (∀ m : Option String,
        delegateRun Delegate.unimplemented m =
          .error (.assertionFailure (withMsg "Unimplemented" m))) ∧
    (∀ u : Unit,
        delegateRun Delegate.unreachable u =
          .error (.assertionFailure "Unreachable")) :=
  ⟨rfl, rfl, rfl, rfl, rfl, rfl, fun _ => rfl, fun _ => rfl, fun _ => rfl⟩

/-- C5: if the supplied function raises synchronously, `throws`
returns the raised error and signals no outer failure; if the
function returns normally, `throws` signals failure. -/
theorem throws_returns_error_or_fails :
    ∀ fnb : Except Value Value,
      (∀ e, fnb = .error e →
          delegateRun Delegate.assertThrows (fnb, none, none, none) = .ok e) ∧
      (∀ v, fnb = .ok v →
          ∃ s, delegateRun Delegate.assertThrows (fnb, none, none, none) =
            .error (.assertionFailure s)) := by
  intro fnb
  constructor
  · intro e he
    subst he
    rfl
  · intro v hv
    subst hv
    exact ⟨"Expected function to throw", rfl⟩

/-- Witness for C5: a function raising the value "boom" and a function
returning normally. -/
theorem throws_returns_error_or_fails_witness :
    delegateRun Delegate.assertThrows
        (Except.error (Value.vStr "boom"), none, none, none) =
      .ok (Value.vStr "boom") ∧
    ∃ s, delegateRun Delegate.assertThrows
        (Except.ok Value.vUndefined, none, none, none) =
      .error (.assertionFailure s) :=
  ⟨(throws_returns_error_or_fails _).1 _ rfl,
   (throws_returns_error_or_fails _).2 _ rfl⟩

/-- C6: `rejects` invokes the supplied function exactly once (the
invocation counter advances by exactly one call); if the deferred
result settles in failure, `rejects` resolves successfully with that
error; if it settles successfully, `rejects` signals failure; and the
outcome is a function of the settlement alone, so it is determined
strictly after settlement. -/
theorem rejects_invokes_once_and_matches_settlement :
    ∀ (fn : Nat → Except Value Value × Nat) (n : Nat),
      ((∀ k, (fn k).2 = k + 1) →
          (rejectsCounted fn none none none n).2 = n + 1) ∧
      (∀ e, (fn n).1 = .error e →
          (rejectsCounted fn none none none n).1 = .ok e) ∧
      (∀ v, (fn n).1 = .ok v →
          ∃ s, (rejectsCounted fn none none none n).1 =
            .error (.assertionFailure s)) ∧
      (rejectsCounted fn none none none n).1 =
        expectOutcome "reject" (fn n).1 none none none := by
  intro fn n
  refine ⟨fun h => ?_, fun e he => ?_, fun v hv => ?_, rfl⟩
  · simp [rejectsCounted, h n]
  · simp [rejectsCounted, he, expectOutcome, errMatches]
  · exact ⟨"Expected function to reject",
      by simp [rejectsCounted, hv, expectOutcome, failMsg, withMsg]⟩

/-- Witness for C6: a one-shot function whose deferred result rejects
with the value "boom", invoked with the counter at zero. -/
theorem rejects_invokes_once_and_matches_settlement_witness :
    (rejectsCounted (fun k => (Except.error (Value.vStr "boom"), k + 1))
        none none none 0).2 = 0 + 1 ∧
    (rejectsCounted (fun k => (Except.error (Value.vStr "boom"), k + 1))
        none none none 0).1 = .ok (Value.vStr "boom") :=
  ⟨(rejects_invokes_once_and_matches_settlement _ 0).1 (fun _ => rfl),
   (rejects_invokes_once_and_matches_settlement _ 0).2.1 _ rfl⟩

/-- C7: `equals` never signals failure on a value and itself, and
`notEquals` signals failure exactly when `equals` does not (whatever
the optional messages). -/
theorem equals_reflexive_notEquals_complement :
    (∀ (a : Value) (m : Option String),
        delegateRun Delegate.assertEquals (a, a, m) = .ok Value.vUndefined) ∧
    (∀ (a b : Value) (m m2 : Option String),
        failed (delegateRun Delegate.assertNotEquals (a, b, m)) =
          !failed (delegateRun Delegate.assertEquals (a, b, m2))) := by
  constructor
  · intro a m
    simp [delegateRun, check, deepEqual_refl a]
  · intro a b m m2
    cases hd : deepEqual a b <;> simp [delegateRun, check, failed, failMsg, hd]

/-- C8: `truthy` never signals failure exactly on truthy inputs,
`falsey` never signals failure exactly on falsey inputs, and the two
are exact complements on every input. -/
theorem truthy_falsey_exact_complements :
    (∀ (x : Value) (m : Option String),
        failed (delegateRun Delegate.assertTruthy (x, m)) = !truthyVal x) ∧
    (∀ (x : Value) (m : Option String),
        failed (delegateRun Delegate.assertFalse (x, m)) = truthyVal x) ∧
    (∀ (x : Value) (m m2 : Option String),
        failed (delegateRun Delegate.assertTruthy (x, m)) =
          !failed (delegateRun Delegate.assertFalse (x, m2))) := by
  refine ⟨fun x m => ?_, fun x m => ?_, fun x m m2 => ?_⟩ <;>
    cases ht : truthyVal x <;> simp [delegateRun, check, failed, failMsg, ht]

/-- C9: every failure any delegate signals is the uniform assertion
failure carrying a message, and the facade adds nothing in between: a
member call is the delegate call, so the delegate's failure propagates
unchanged to the caller. -/
theorem failures_uniform_and_propagated :
    (∀ (d : Delegate) (args : DelegateInput d) (e : Thrown),
        delegateRun d args = .error e → ∃ s, e = .assertionFailure s) ∧
    (∀ (n : ShortName) (args : DelegateInput (assertMember n)),
        facadeRun n args = delegateRun (assertMember n) args) := by
  constructor
  · intro d args e h
    cases d
    case assertEquals => obtain ⟨a, b, m⟩ := args; exact check_error h
    case assertStrictEquals => obtain ⟨a, b, m⟩ := args; exact check_error h
    case assertNotEquals => obtain ⟨a, b, m⟩ := args; exact check_error h
    case assertNotStrictEquals => obtain ⟨a, b, m⟩ := args; exact check_error h
    case assertTruthy => obtain ⟨x, m⟩ := args; exact check_error h
    case assertFalse => obtain ⟨x, m⟩ := args; exact check_error h
    case assertExists => obtain ⟨x, m⟩ := args; exact check_error h
    case assertMatch => obtain ⟨s, p, m⟩ := args; exact check_error h
    case assertNotMatch => obtain ⟨s, p, m⟩ := args; exact check_error h
    case assertStringIncludes => obtain ⟨a, b, m⟩ := args; exact check_error h
    case assertArrayIncludes => obtain ⟨a, b, m⟩ := args; exact check_error h
    case assertObjectMatch => obtain ⟨a, b, m⟩ := args; exact check_error h
    case assertInstanceOf => obtain ⟨v, c, m⟩ := args; exact check_error h
    case assertNotInstanceOf => obtain ⟨v, c, m⟩ := args; exact check_error h
    case assertIsError => obtain ⟨v, cls, mi, m⟩ := args; exact isErrorRun_error h
    case assertThrows => obtain ⟨fnb, cls, mi, m⟩ := args; exact expectOutcome_error h
    case assertRejects => obtain ⟨settle, cls, mi, m⟩ := args; exact expectOutcome_error h
    case fail => exact failMsg_error h
    case unimplemented => exact failMsg_error h
    case unreachable => exact failMsg_error h
    case assertAlmostEquals => obtain ⟨a, b, dl, m⟩ := args; exact check_error h
  · intro n args
    rfl

/-- Witness for C9's uniformity at the delegate `fail` called with no
message. -/
theorem failures_uniform_and_propagated_witness :
    ∃ s, Thrown.assertionFailure "Failed assertion" = Thrown.assertionFailure s :=
  failures_uniform_and_propagated.1 Delegate.fail none
    (Thrown.assertionFailure "Failed assertion") rfl

/-- C10: the aggregate members `ok` and `truthy` are bound to the
identical delegate, so on every input and optional message the two
calls have exactly the same outcome. -/
theorem ok_truthy_same_function :
    assertMember ShortName.ok = assertMember ShortName.truthy ∧
    ∀ (x : Value) (m : Option String),
        facadeRun ShortName.ok (x, m) = facadeRun ShortName.truthy (x, m) :=
  ⟨rfl, fun _ _ => rfl⟩

end GnomeAssert
